import Mathlib

/-!
# Shallow embedding of `cnb.py` (Czech National Bank exchange-rate library)

The source is a single Python module.  Its core is the stateful rate
resolver `_rate(currency, date, valid_days_max, cache, fcache)` together
with a pure conversion layer (`convert`, `convert_to`, `worse`,
`modified`, `apply_amount`).

Modelling choices, faithful to the source:

* Calendar dates are modelled as `Int` (a day number); Python
  `timedelta(days=n)` arithmetic is integer addition/subtraction.  Cache
  keys in the source are the string `date.strftime('%d.%m.%Y') + currency`;
  since that date format is exactly 10 characters and injective on dates,
  a key is modelled as the pair `(Int × String)`, and the source's
  `strptime(cache_key[:10])` recovers precisely the key's date component.
* Python `float` values coming from the parsed tables (rates, unit
  amounts) are modelled as `ℚ` (exact arithmetic); the only place the
  source produces a non-finite float (`worse`) returns a dedicated
  inductive (`PyFloat`).
* Python dicts are modelled as association lists without duplicate keys
  (`lookupA` / `insertA` / `List.length` mirror `get` / `d[k]=v` / `len`).
* External collaborators (network fetch, the Prague wall clock, the
  fallback-file read) are snapshot in an `Env` record: `fetch = none`
  models `download_table` raising `IOError`; `fileLoad = none` models the
  `open`/`json.loads` of the fallback file raising; `pragueHHMM` is the
  string `datetime.now(timezone('Europe/Prague')).strftime('%H:%M')`.
* The parsed daily table (`parse_table` output) is abstracted at the
  interface the resolver uses: `amountRow` is the parsed
  `float(t['Mna: CUR'][0].split()[-1])` when the row exists (`none`
  models the `KeyError` on a missing row), and `rates` holds the
  date-keyed rows with the parsed rate of column 0.
* The resolver's three exits are an outcome type: returning a tuple,
  raising `ValueError` (rate not found), raising `KeyError`.
  `RateResult.didFetch` records whether the network call was attempted.
-/

/-- The tuple returned by `rate_tuple`/`_rate`:
`(rate, amount, date, served-from-cache?, service-call-failed?)`. -/
structure RateTuple where
  rate : ℚ
  amount : ℚ
  date : Int
  fromCache : Bool
  failed : Bool
deriving DecidableEq, Repr

/-- The in-memory rate cache `cache`: key `(date, currency)` (the source's
string `strftime('%d.%m.%Y') + currency`), value `(rate, amount)`. -/
abbrev Cache := List ((Int × String) × (ℚ × ℚ))

/-- The persisted-fallback shadow `fcache`: currency ↦ `(rate, amount, date)`
(the source stores the date as a `'%d.%m.%Y'` string). -/
abbrev FCache := List (String × (ℚ × ℚ × Int))

/-- The process-wide `RESULT_INFO` map: currency ↦ last resolved tuple. -/
abbrev RInfo := List (String × RateTuple)

/-- Python `d.get(k)` on an association list. -/
def lookupA {κ α : Type} [DecidableEq κ] (m : List (κ × α)) (k : κ) : Option α :=
  (m.find? (fun p => decide (p.1 = k))).map (fun p => p.2)

/-- Python `d[k] = v` on an association list without duplicate keys:
replace the entry in place, else append (Python dicts keep insertion order
and update in place). -/
def insertA {κ α : Type} [DecidableEq κ] : List (κ × α) → κ → α → List (κ × α)
  | [], k, v => [(k, v)]
  | p :: m, k, v => if p.1 = k then (k, v) :: m else p :: insertA m k v

/-- Python `str.upper()` on one character, for the ASCII range the
currency codes live in (`bytes.upper` semantics on `a`–`z`). -/
def pyUpperChar (c : Char) : Char :=
  if 'a' ≤ c ∧ c ≤ 'z' then Char.ofNat (c.toNat - 32) else c

/-- Python `currency.upper()` (structural, so it reduces in the kernel). -/
def pyUpper (s : String) : String := ⟨s.data.map pyUpperChar⟩

/-- Python lexicographic `<` on code points, on character lists. -/
def strLtB : List Char → List Char → Bool
  | [], [] => false
  | [], _ :: _ => true
  | _ :: _, [] => false
  | a :: as, b :: bs => if a < b then true else if b < a then false else strLtB as bs

/-- Python string `<` (used on zero-padded `'HH:MM'` strings, where
lexicographic order coincides with time order). -/
def pyStrLt (a b : String) : Bool := strLtB a.data b.data

/-- Constant `DAYCNT = 8`: how many days back the daily URL asks for rates. -/
def DAYCNT : Nat := 8

/-- Constant `CACHE_YESTERDAY_BEFORE = '14:00'`. -/
def CACHE_YESTERDAY_BEFORE : String := "14:00"

/-- Constant `VALID_DAYS_MAX_DEFAULT = 60`. -/
def VALID_DAYS_MAX_DEFAULT : Nat := 60

/-- Constant `SIZE_CACHE_OLDER = 500`: maximum items in `cache` before only
fresh-cacheable lookups may still insert. -/
def SIZE_CACHE_OLDER : Nat := 500

/-- The parsed daily table, abstracted at the interface `_rate` uses. -/
structure Table where
  /-- Parsed unit amount from the row `'Mna: <CUR>'`; `none` models that
  row being absent (so `t['Mna: <CUR>']` raises `KeyError`). -/
  amountRow : Option ℚ
  /-- Date-keyed data rows; the value is the parsed rate of column 0
  (`get_rate(t, key, 0)`). -/
  rates : List (Int × ℚ)
deriving DecidableEq, Repr

/-- Snapshot of the external collaborators for one resolver call. -/
structure Env where
  /-- The value of `datetime.date.today()`. -/
  today : Int
  /-- The value of `datetime.datetime.now(timezone('Europe/Prague')).strftime('%H:%M')`. -/
  pragueHHMM : String
  /-- Result of `download_table(url, 0)`; `none` models `IOError`. -/
  fetch : Option Table
  /-- Result of reading+parsing the fallback file; `none` models any
  exception while opening or decoding it. -/
  fileLoad : Option FCache
  /-- The `OFFLINE_CACHE` configuration constant (`True` in the source). -/
  offlineCache : Bool
deriving DecidableEq, Repr

/-- The three ways `_rate` can exit. -/
inductive RateOutcome where
  /-- A returned `RateTuple`. -/
  | ok (r : RateTuple)
  /-- The exit `raise ValueError('rate not found for currency ...')`. -/
  | rateNotFound
  /-- An uncaught `KeyError` from `t['Mna: <CUR>']`. -/
  | keyError
deriving DecidableEq, Repr

/-- Result of one `_rate` call: outcome plus the post-state of the three
mutable maps, plus a ghost flag recording whether the network call was
attempted. -/
structure RateResult where
  outcome : RateOutcome
  cache : Cache
  fcache : FCache
  resultInfo : RInfo
  didFetch : Bool
deriving DecidableEq, Repr

/-- The scan `for test in range(DAYCNT + 1): ... if key in t: break`:
first date of `date_ask, date_ask - 1, ..., date_ask - DAYCNT` present
in the table, if any. -/
def findDateTest (t : Table) (dateAsk : Int) : Option Int :=
  (List.range (DAYCNT + 1)).findSome? (fun test =>
    let d := dateAsk - test
    if (lookupA t.rates d).isSome then some d else none)

/-- One iteration of the offline-fallback memory scan
(`for delta_days in range(test_delta)` body): probe `today - delta`,
then — only for `delta > 0` — `today + delta`. -/
def scanStep (cache : Cache) (currency : String) (today : Int) (deltaDays : Nat) :
    Option (ℚ × ℚ) :=
  match lookupA cache (today - deltaDays, currency) with
  | some v => some v
  | none =>
    if deltaDays = 0 then none
    else lookupA cache (today + deltaDays, currency)

/-- The offline-fallback memory scan: first hit over
`delta_days = 0, 1, ..., testDelta - 1` in the source's probe order. -/
def fallbackScan (cache : Cache) (currency : String) (today : Int) (testDelta : Nat) :
    Option (ℚ × ℚ) :=
  (List.range testDelta).findSome? (scanStep cache currency today)

/-- State of `fcache` after the lazy file merge: when the currency is not already in
the shadow, load the file and add every key not already present (the
source's `for k in rf_cache: if k not in fcache: fcache[k] = rf_cache[k]`);
a failed load (`fileLoad = none`) leaves the shadow unchanged. -/
def fcacheAfterLoad (env : Env) (fcache : FCache) (currency : String) : FCache :=
  match lookupA fcache currency with
  | some _ => fcache
  | none =>
    match env.fileLoad with
    | none => fcache
    | some rf =>
      rf.foldl (fun acc kv => if (lookupA acc kv.1).isSome then acc else acc ++ [kv]) fcache

/-- The `failed` branch of `_rate` (lines 233–271): offline fallback via the
persisted shadow and the memory scan, else `ValueError`.
`staleKeyDate` is the date component of the enclosing function's local
`cache_key` at this point — `date_ask`, or `date_ask - 1` when the
before-14:00 probe ran — because the `from_cache` closure reads `cache_key`,
which the scan loop never reassigns (the loop uses `test_key`). -/
def offlineFallback (env : Env) (currency : String) (dateAsk : Int)
    (validDaysMax : Nat) (staleKeyDate : Int)
    (cache : Cache) (fcache : FCache) (rinfo : RInfo) : RateResult :=
  if env.offlineCache then
    let fcache2 := fcacheAfterLoad env fcache currency
    let fcached := lookupA fcache2 currency
    let td : Nat × Option (ℚ × ℚ × Int) :=
      match fcached with
      | none => (validDaysMax + 1, none)
      | some f =>
        let delta := (dateAsk - f.2.2).natAbs
        if delta ≤ validDaysMax then (delta, some f) else (validDaysMax + 1, none)
    match fallbackScan cache currency env.today td.1 with
    | some v =>
      let result : RateTuple := ⟨v.1, v.2, staleKeyDate, true, true⟩
      ⟨.ok result, cache, fcache2, insertA rinfo currency result, true⟩
    | none =>
      match td.2 with
      | some f =>
        let result : RateTuple := ⟨f.1, f.2.1, f.2.2, true, true⟩
        ⟨.ok result, cache, fcache2, insertA rinfo currency result, true⟩
      | none => ⟨.rateNotFound, cache, fcache2, rinfo, true⟩
  else
    ⟨.rateNotFound, cache, fcache, rinfo, true⟩

/-- The fetch branch of `_rate` (lines 214–231 and 273–285): on a parsed
table, read the unit amount (`KeyError` if the `'Mna: <CUR>'` row is
missing), scan for the first covered date, populate the caches, record and
return; on `IOError` or scan exhaustion, fall back. -/
def fetchStage (env : Env) (currency : String) (dateAsk : Int) (fcacheable : Bool)
    (validDaysMax : Nat) (staleKeyDate : Int)
    (cache : Cache) (fcache : FCache) (rinfo : RInfo) : RateResult :=
  match env.fetch with
  | none => offlineFallback env currency dateAsk validDaysMax staleKeyDate cache fcache rinfo
  | some t =>
    match t.amountRow with
    | none => ⟨.keyError, cache, fcache, rinfo, true⟩
    | some amount =>
      match findDateTest t dateAsk with
      | none => offlineFallback env currency dateAsk validDaysMax staleKeyDate cache fcache rinfo
      | some dateTest =>
        let nrate := (lookupA t.rates dateTest).getD 0
        if fcacheable || decide (cache.length < SIZE_CACHE_OLDER) then
          let cache' := insertA cache (dateTest, currency) (nrate, amount)
          let fcache' :=
            if fcacheable then insertA fcache currency (nrate, amount, env.today) else fcache
          let result : RateTuple := ⟨nrate, amount, dateTest, false, false⟩
          ⟨.ok result, cache', fcache', insertA rinfo currency result, true⟩
        else
          let result : RateTuple := ⟨nrate, amount, dateTest, false, false⟩
          ⟨.ok result, cache, fcache, insertA rinfo currency result, true⟩

/-- Computation of `date_ask` and `fcacheable` (lines 195–200): a strictly past requested
date is used as-is and is not fresh-cacheable; absent, today or future
dates resolve to today and are fresh-cacheable. -/
def dateAskOf (dateOpt : Option Int) (today : Int) : Int × Bool :=
  match dateOpt with
  | some d => if d < today then (d, false) else (today, true)
  | none => (today, true)

/-- The rate resolver `_rate(currency, date, valid_days_max, cache, fcache)`.
State (`cache`, `fcache`, `RESULT_INFO`) is passed and returned explicitly;
`env` snapshots the external collaborators. -/
def ratePy (env : Env) (currency0 : String) (dateOpt : Option Int)
    (validDaysMaxOpt : Option Nat)
    (cache : Cache) (fcache : FCache) (rinfo : RInfo) : RateResult :=
  let currency := pyUpper currency0
  let validDaysMax := validDaysMaxOpt.getD VALID_DAYS_MAX_DEFAULT
  if currency = "CZK" then
    let result : RateTuple := ⟨1, 1, env.today, false, false⟩
    ⟨.ok result, cache, fcache, insertA rinfo "CZK" result, false⟩
  else
    let da := dateAskOf dateOpt env.today
    match lookupA cache (da.1, currency) with
    | some v =>
      let result : RateTuple := ⟨v.1, v.2, da.1, true, false⟩
      ⟨.ok result, cache, fcache, insertA rinfo currency result, false⟩
    | none =>
      if pyStrLt env.pragueHHMM CACHE_YESTERDAY_BEFORE then
        match lookupA cache (da.1 - 1, currency) with
        | some v =>
          let result : RateTuple := ⟨v.1, v.2, da.1 - 1, true, false⟩
          ⟨.ok result, cache, fcache, insertA rinfo currency result, false⟩
        | none =>
          fetchStage env currency da.1 da.2 validDaysMax (da.1 - 1) cache fcache rinfo
      else
        fetchStage env currency da.1 da.2 validDaysMax da.1 cache fcache rinfo

/-!
## Conversion layer

`convert`, `convert_to` and `worse` obtain rates through `rate(currency,
date, valid_days_max)`, which returns `apply_amount` of a successful
`_rate` call.  The pure conversion arithmetic is embedded over an abstract
resolved-rate assignment `ρ : String → ℚ` standing for
`fun c => rate(c, date, valid_days_max)` at the call's fixed date, in a
run where every needed lookup succeeds (otherwise the Python call would
propagate an exception before any arithmetic happens).
-/

/-- Source `apply_amount(nrate, amount)`. -/
def apply_amount (nrate amount : ℚ) : ℚ :=
  if amount = 1 then nrate else nrate / amount

/-- Source `modified(number, percent)`: identity at `percent == 0` (the source's
`float(number)` conversion is the identity on exact rationals). -/
def modifiedPy (number percent : ℚ) : ℚ :=
  if percent ≠ 0 then number * (100 + percent) / 100 else number

/-- Source `convert_to(target, amount, date, percent, valid_days_max)`. -/
def convert_toPy (ρ : String → ℚ) (target : String) (amount percent : ℚ) : ℚ :=
  let result := if pyUpper target = "CZK" then amount else amount / ρ target
  modifiedPy result percent

/-- Source `convert(amount, source, target, date, percent, valid_days_max)`:
pivot through CZK; `convert_to` is called with its default `percent=0`. -/
def convertPy (ρ : String → ℚ) (amount : ℚ) (source target : String) (percent : ℚ) : ℚ :=
  let czk := if pyUpper source = "CZK" then amount else amount * ρ source
  modifiedPy (convert_toPy ρ target czk 0) percent

/-- A Python float that is either finite or one of the two infinities
produced by `worse`. -/
inductive PyFloat where
  | finite (q : ℚ)
  | inf
  | ninf
deriving DecidableEq, Repr

/-- Source `worse(src_amount, src_currency, target_amount_obtained, target_currency,
date, valid_days_max)`: `(percent, difference_src_currency,
difference_target_currency)`. -/
def worsePy (ρ : String → ℚ) (srcAmount : ℚ) (srcCurrency : String)
    (targetAmountObtained : ℚ) (targetCurrency : String) : PyFloat × ℚ × ℚ :=
  let calculated := convertPy ρ srcAmount srcCurrency targetCurrency 0
  let w := calculated - targetAmountObtained
  let wsrc := convertPy ρ w targetCurrency srcCurrency 0
  if srcAmount ≠ 0 then
    (.finite (wsrc / srcAmount * 100), wsrc, w)
  else if targetAmountObtained = 0 then
    (.finite 0, wsrc, w)
  else if targetAmountObtained < 0 then
    (.inf, wsrc, w)
  else
    (.ninf, wsrc, w)

/-!
## Specification-side definitions and concrete fixtures
-/

/-- The probe order of the offline memory scan as the specification states
it: for `delta = 0 .. testDelta-1`, `today - delta` then — only for
`delta > 0` — `today + delta`, so today itself appears exactly once. -/
def specScanOrder (today : Int) (testDelta : Nat) : List Int :=
  (List.range testDelta).flatMap (fun d =>
    if d = 0 then [today] else [today - (d : Int), today + (d : Int)])

/-- Number of cache entries dated other than `today` (the specification's
"historical" entries). -/
def cacheOlderCount (c : Cache) (today : Int) : Nat :=
  (c.filter (fun p => decide (p.1.1 ≠ today))).length

/-- A full cache: 499 future-dated entries and one today-dated entry for
currency `"X"`, with `today = 100`; total size `SIZE_CACHE_OLDER`, only
499 entries dated other than today. -/
def bigCache : Cache :=
  ((List.range 499).map (fun i => (((101 + i : Int), "X"), ((1 : ℚ), (1 : ℚ))))) ++
    [((100, "X"), (1, 1))]

/-- Environment for the cache-bound counterexample: today is day 100,
after the 14:00 cutoff, and the fetch succeeds with a table quoting
rate 5 per 1 unit on day 50. -/
def envPast50 : Env := ⟨100, "15:00", some ⟨some 1, [(50, 5)]⟩, none, true⟩

/-- Environment for the idempotence counterexample: today is day 100,
after the 14:00 cutoff, and the fetch succeeds with a table whose only
covered date is day 99 (e.g. today's rate is not published yet). -/
def envSkipToday : Env := ⟨100, "15:00", some ⟨some 1, [(99, 5)]⟩, none, true⟩

/-!
## Association-list lemmas
-/

theorem lookupA_cons {κ α : Type} [DecidableEq κ] (p : κ × α) (m : List (κ × α)) (k : κ) :
    lookupA (p :: m) k = if p.1 = k then some p.2 else lookupA m k := by
  by_cases h : p.1 = k <;> simp [lookupA, List.find?_cons, h]

theorem lookupA_insertA_self {κ α : Type} [DecidableEq κ]
    (m : List (κ × α)) (k : κ) (v : α) : lookupA (insertA m k v) k = some v := by
  induction m with
  | nil => simp [insertA, lookupA_cons]
  | cons p m ih =>
    by_cases h : p.1 = k
    · simp [insertA, h, lookupA_cons]
    · simp [insertA, h, lookupA_cons, ih]

theorem findSome?_append {α β : Type} (f : α → Option β) (l₁ l₂ : List α) :
    (l₁ ++ l₂).findSome? f = (l₁.findSome? f).or (l₂.findSome? f) := by
  induction l₁ with
  | nil => simp [List.findSome?_nil]
  | cons a l ih =>
    rcases h : f a with _ | b <;> simp [List.findSome?_cons, h, ih, Option.or]

/-!
## The offline memory scan follows the specification's probe order
-/

theorem fallbackScan_eq_specScan (cache : Cache) (cur : String) (today : Int) (n : Nat) :
    fallbackScan cache cur today n =
      (specScanOrder today n).findSome? (fun d => lookupA cache (d, cur)) := by
  induction n with
  | zero => rfl
  | succ n ih =>
    have hstep : scanStep cache cur today n =
        ((if n = 0 then [today] else [today - (n : Int), today + (n : Int)]).findSome?
          (fun d => lookupA cache (d, cur))) := by
      by_cases h0 : n = 0
      · subst h0
        rcases hl : lookupA cache (today, cur) with _ | v <;>
          simp [scanStep, List.findSome?_cons, hl]
      · rcases hl : lookupA cache (today - (n : Int), cur) with _ | v
        · rcases hl2 : lookupA cache (today + (n : Int), cur) with _ | w <;>
            simp [scanStep, h0, List.findSome?_cons, hl, hl2]
        · simp [scanStep, h0, List.findSome?_cons, hl]
    unfold fallbackScan specScanOrder at ih ⊢
    rw [List.range_succ, List.flatMap_append, findSome?_append, findSome?_append, ih]
    congr 1
    simp only [List.flatMap_cons, List.flatMap_nil, List.append_nil]
    rw [← hstep]
    rcases hsn : scanStep cache cur today n with _ | v <;> simp [List.findSome?_cons, hsn]

/-!
## Branch lemmas for `ratePy`
-/

theorem ratePy_czk (env : Env) (cur : String) (dateOpt : Option Int) (vdm : Option Nat)
    (cache : Cache) (fcache : FCache) (rinfo : RInfo) (h : pyUpper cur = "CZK") :
    ratePy env cur dateOpt vdm cache fcache rinfo =
      ⟨.ok ⟨1, 1, env.today, false, false⟩, cache, fcache,
        insertA rinfo "CZK" ⟨1, 1, env.today, false, false⟩, false⟩ := by
  simp [ratePy, h]

theorem ratePy_cacheHit (env : Env) (cur : String) (dateOpt : Option Int) (vdm : Option Nat)
    (cache : Cache) (fcache : FCache) (rinfo : RInfo) (dateAsk : Int) (fcb : Bool) (v : ℚ × ℚ)
    (hcur : pyUpper cur ≠ "CZK") (hda : dateAskOf dateOpt env.today = (dateAsk, fcb))
    (hhit : lookupA cache (dateAsk, pyUpper cur) = some v) :
    ratePy env cur dateOpt vdm cache fcache rinfo =
      ⟨.ok ⟨v.1, v.2, dateAsk, true, false⟩, cache, fcache,
        insertA rinfo (pyUpper cur) ⟨v.1, v.2, dateAsk, true, false⟩, false⟩ := by
  simp [ratePy, hcur, hda, hhit]

theorem ratePy_probeHit (env : Env) (cur : String) (dateOpt : Option Int) (vdm : Option Nat)
    (cache : Cache) (fcache : FCache) (rinfo : RInfo) (dateAsk : Int) (fcb : Bool) (v : ℚ × ℚ)
    (hcur : pyUpper cur ≠ "CZK") (hda : dateAskOf dateOpt env.today = (dateAsk, fcb))
    (hmiss : lookupA cache (dateAsk, pyUpper cur) = none)
    (hcut : pyStrLt env.pragueHHMM CACHE_YESTERDAY_BEFORE = true)
    (hhit : lookupA cache (dateAsk - 1, pyUpper cur) = some v) :
    ratePy env cur dateOpt vdm cache fcache rinfo =
      ⟨.ok ⟨v.1, v.2, dateAsk - 1, true, false⟩, cache, fcache,
        insertA rinfo (pyUpper cur) ⟨v.1, v.2, dateAsk - 1, true, false⟩, false⟩ := by
  simp [ratePy, hcur, hda, hmiss, hcut, hhit]

theorem ratePy_eq_fetchStage (env : Env) (cur : String) (dateOpt : Option Int)
    (vdm : Option Nat) (cache : Cache) (fcache : FCache) (rinfo : RInfo)
    (dateAsk : Int) (fcb : Bool)
    (hcur : pyUpper cur ≠ "CZK") (hda : dateAskOf dateOpt env.today = (dateAsk, fcb))
    (hmiss : lookupA cache (dateAsk, pyUpper cur) = none)
    (hmiss2 : pyStrLt env.pragueHHMM CACHE_YESTERDAY_BEFORE = true →
      lookupA cache (dateAsk - 1, pyUpper cur) = none) :
    ratePy env cur dateOpt vdm cache fcache rinfo =
      fetchStage env (pyUpper cur) dateAsk fcb (vdm.getD VALID_DAYS_MAX_DEFAULT)
        (if pyStrLt env.pragueHHMM CACHE_YESTERDAY_BEFORE then dateAsk - 1 else dateAsk)
        cache fcache rinfo := by
  by_cases hcut : pyStrLt env.pragueHHMM CACHE_YESTERDAY_BEFORE = true
  · simp [ratePy, hcur, hda, hmiss, hcut, hmiss2 hcut]
  · simp [ratePy, hcur, hda, hmiss, hcut]

theorem fetchStage_success (env : Env) (cur : String) (dateAsk : Int) (fcb : Bool)
    (vdmN : Nat) (sd : Int) (cache : Cache) (fcache : FCache) (rinfo : RInfo)
    (t : Table) (a : ℚ) (dt : Int)
    (hfetch : env.fetch = some t) (hrow : t.amountRow = some a)
    (hdt : findDateTest t dateAsk = some dt) :
    fetchStage env cur dateAsk fcb vdmN sd cache fcache rinfo =
      if fcb || decide (cache.length < SIZE_CACHE_OLDER) then
        ⟨.ok ⟨(lookupA t.rates dt).getD 0, a, dt, false, false⟩,
          insertA cache (dt, cur) ((lookupA t.rates dt).getD 0, a),
          (if fcb then insertA fcache cur ((lookupA t.rates dt).getD 0, a, env.today)
            else fcache),
          insertA rinfo cur ⟨(lookupA t.rates dt).getD 0, a, dt, false, false⟩, true⟩
      else
        ⟨.ok ⟨(lookupA t.rates dt).getD 0, a, dt, false, false⟩, cache, fcache,
          insertA rinfo cur ⟨(lookupA t.rates dt).getD 0, a, dt, false, false⟩, true⟩ := by
  by_cases hc : (fcb || decide (cache.length < SIZE_CACHE_OLDER)) = true <;>
    simp [fetchStage, hfetch, hrow, hdt, hc]

theorem offlineFallback_scanHit (env : Env) (cur : String) (dateAsk : Int) (vdmN : Nat)
    (sd : Int) (cache : Cache) (fcache : FCache) (rinfo : RInfo) (testDelta : Nat) (v : ℚ × ℚ)
    (hoff : env.offlineCache = true)
    (htd : testDelta = (match lookupA (fcacheAfterLoad env fcache cur) cur with
            | none => vdmN + 1
            | some f => if (dateAsk - f.2.2).natAbs ≤ vdmN then (dateAsk - f.2.2).natAbs
                        else vdmN + 1))
    (hs : fallbackScan cache cur env.today testDelta = some v) :
    offlineFallback env cur dateAsk vdmN sd cache fcache rinfo =
      ⟨.ok ⟨v.1, v.2, sd, true, true⟩, cache, fcacheAfterLoad env fcache cur,
        insertA rinfo cur ⟨v.1, v.2, sd, true, true⟩, true⟩ := by
  rcases hl : lookupA (fcacheAfterLoad env fcache cur) cur with _ | f
  · rw [hl] at htd
    subst htd
    simp [offlineFallback, hoff, hl, hs]
  · rw [hl] at htd
    have htd' : testDelta =
        if (dateAsk - f.2.2).natAbs ≤ vdmN then (dateAsk - f.2.2).natAbs else vdmN + 1 := htd
    by_cases hd : (dateAsk - f.2.2).natAbs ≤ vdmN
    · rw [if_pos hd] at htd'
      subst htd'
      simp [offlineFallback, hoff, hl, hd, hs]
    · rw [if_neg hd] at htd'
      subst htd'
      simp [offlineFallback, hoff, hl, hd, hs]

theorem offlineFallback_notFound (env : Env) (cur : String) (dateAsk : Int) (vdmN : Nat)
    (sd : Int) (cache : Cache) (fcache : FCache) (rinfo : RInfo)
    (hoff : env.offlineCache = true)
    (hfc : ∀ f, lookupA (fcacheAfterLoad env fcache cur) cur = some f →
       ¬ (dateAsk - f.2.2).natAbs ≤ vdmN)
    (hs : fallbackScan cache cur env.today (vdmN + 1) = none) :
    offlineFallback env cur dateAsk vdmN sd cache fcache rinfo =
      ⟨.rateNotFound, cache, fcacheAfterLoad env fcache cur, rinfo, true⟩ := by
  rcases hl : lookupA (fcacheAfterLoad env fcache cur) cur with _ | f
  · simp [offlineFallback, hoff, hl, hs]
  · have hd := hfc f hl
    simp [offlineFallback, hoff, hl, hd, hs]

theorem offlineFallback_disabled (env : Env) (cur : String) (dateAsk : Int) (vdmN : Nat)
    (sd : Int) (cache : Cache) (fcache : FCache) (rinfo : RInfo)
    (hoff : env.offlineCache = false) :
    offlineFallback env cur dateAsk vdmN sd cache fcache rinfo =
      ⟨.rateNotFound, cache, fcache, rinfo, true⟩ := by
  simp [offlineFallback, hoff]

theorem offlineFallback_notFound_preserves (env : Env) (cur : String) (dateAsk : Int)
    (vdmN : Nat) (sd : Int) (cache : Cache) (fcache : FCache) (rinfo : RInfo)
    (h : (offlineFallback env cur dateAsk vdmN sd cache fcache rinfo).outcome = .rateNotFound) :
    (offlineFallback env cur dateAsk vdmN sd cache fcache rinfo).cache = cache ∧
    (offlineFallback env cur dateAsk vdmN sd cache fcache rinfo).resultInfo = rinfo := by
  by_cases hoff : env.offlineCache = true
  · rcases hl : lookupA (fcacheAfterLoad env fcache cur) cur with _ | f
    · rcases hs : fallbackScan cache cur env.today (vdmN + 1) with _ | v
      · simp [offlineFallback, hoff, hl, hs]
      · simp [offlineFallback, hoff, hl, hs] at h
    · by_cases hd : (dateAsk - f.2.2).natAbs ≤ vdmN
      · rcases hs : fallbackScan cache cur env.today ((dateAsk - f.2.2).natAbs) with _ | v
        · simp [offlineFallback, hoff, hl, hd, hs] at h
        · simp [offlineFallback, hoff, hl, hd, hs] at h
      · rcases hs : fallbackScan cache cur env.today (vdmN + 1) with _ | v
        · simp [offlineFallback, hoff, hl, hd, hs]
        · simp [offlineFallback, hoff, hl, hd, hs] at h
  · have hoff' : env.offlineCache = false := by
      revert hoff
      cases env.offlineCache <;> simp
    simp [offlineFallback, hoff']

theorem fetchStage_notFound_preserves (env : Env) (cur : String) (dateAsk : Int) (fcb : Bool)
    (vdmN : Nat) (sd : Int) (cache : Cache) (fcache : FCache) (rinfo : RInfo)
    (h : (fetchStage env cur dateAsk fcb vdmN sd cache fcache rinfo).outcome = .rateNotFound) :
    (fetchStage env cur dateAsk fcb vdmN sd cache fcache rinfo).cache = cache ∧
    (fetchStage env cur dateAsk fcb vdmN sd cache fcache rinfo).resultInfo = rinfo := by
  rcases hf : env.fetch with _ | t
  · have he : fetchStage env cur dateAsk fcb vdmN sd cache fcache rinfo =
        offlineFallback env cur dateAsk vdmN sd cache fcache rinfo := by
      simp [fetchStage, hf]
    rw [he] at h ⊢
    exact offlineFallback_notFound_preserves env cur dateAsk vdmN sd cache fcache rinfo h
  · rcases hrow : t.amountRow with _ | a
    · simp [fetchStage, hf, hrow] at h
    · rcases hdt : findDateTest t dateAsk with _ | dt
      · have he : fetchStage env cur dateAsk fcb vdmN sd cache fcache rinfo =
            offlineFallback env cur dateAsk vdmN sd cache fcache rinfo := by
          simp [fetchStage, hf, hrow, hdt]
        rw [he] at h ⊢
        exact offlineFallback_notFound_preserves env cur dateAsk vdmN sd cache fcache rinfo h
      · by_cases hc : (fcb || decide (cache.length < SIZE_CACHE_OLDER)) = true <;>
          simp [fetchStage, hf, hrow, hdt, hc] at h

theorem convertPy_zero (ρ : String → ℚ) (source target : String) :
    convertPy ρ 0 source target 0 = 0 := by
  simp [convertPy, convert_toPy, modifiedPy]

theorem findDateTest_self (t : Table) (dateAsk : Int) (q : ℚ)
    (hq : lookupA t.rates dateAsk = some q) :
    findDateTest t dateAsk = some dateAsk := by
  have hr : List.range (DAYCNT + 1) = 0 :: [1, 2, 3, 4, 5, 6, 7, 8] := rfl
  simp [findDateTest, hr, List.findSome?_cons, hq]

/-!
## Claim theorems
-/

/-- C6: for every currency equal to `"CZK"` case-insensitively and any date
and `valid_days_max` arguments, the resolver returns
`(1.0, 1.0, today, False, False)` immediately: the rate cache and fallback
shadow are untouched and no network fetch happens (`didFetch = false`);
only `RESULT_INFO['CZK']` is recorded. -/
theorem czk_resolves_fixed (env : Env) (cur : String) (dateOpt : Option Int)
    (vdm : Option Nat) (cache : Cache) (fcache : FCache) (rinfo : RInfo)
    (h : pyUpper cur = "CZK") :
    ratePy env cur dateOpt vdm cache fcache rinfo =
      ⟨.ok ⟨1, 1, env.today, false, false⟩, cache, fcache,
        insertA rinfo "CZK" ⟨1, 1, env.today, false, false⟩, false⟩ :=
  ratePy_czk env cur dateOpt vdm cache fcache rinfo h

/-- Witness for C6 at `currency = "czk"`. -/
theorem czk_resolves_fixed_witness :
    pyUpper "czk" = "CZK" ∧
    ratePy ⟨100, "15:00", none, none, true⟩ "czk" none none [] [] [] =
      ⟨.ok ⟨1, 1, 100, false, false⟩, [], [],
        [("CZK", ⟨1, 1, 100, false, false⟩)], false⟩ :=
  ⟨by decide,
    czk_resolves_fixed ⟨100, "15:00", none, none, true⟩ "czk" none none [] [] [] (by decide)⟩

/-- C5: on a cache miss for `dateAsk`, when the Prague wall clock is
strictly before the `"14:00"` cutoff, the resolver probes the cache for
`dateAsk - 1` and on a hit returns that entry tagged
`servedFromCache = true`, `servedFromDegradedFallback = false`, with
effective date `dateAsk - 1`, and performs no network fetch. -/
theorem before_cutoff_yesterday_probe (env : Env) (cur : String) (dateOpt : Option Int)
    (vdm : Option Nat) (cache : Cache) (fcache : FCache) (rinfo : RInfo)
    (dateAsk : Int) (fcb : Bool) (v : ℚ × ℚ)
    (hcur : pyUpper cur ≠ "CZK") (hda : dateAskOf dateOpt env.today = (dateAsk, fcb))
    (hmiss : lookupA cache (dateAsk, pyUpper cur) = none)
    (hcut : pyStrLt env.pragueHHMM CACHE_YESTERDAY_BEFORE = true)
    (hhit : lookupA cache (dateAsk - 1, pyUpper cur) = some v) :
    ratePy env cur dateOpt vdm cache fcache rinfo =
      ⟨.ok ⟨v.1, v.2, dateAsk - 1, true, false⟩, cache, fcache,
        insertA rinfo (pyUpper cur) ⟨v.1, v.2, dateAsk - 1, true, false⟩, false⟩ :=
  ratePy_probeHit env cur dateOpt vdm cache fcache rinfo dateAsk fcb v hcur hda hmiss hcut hhit

/-- Witness for C5: at 09:00 Prague time, with only yesterday's entry
cached, the resolver serves it without fetching. -/
theorem before_cutoff_yesterday_probe_witness :
    pyStrLt "09:00" CACHE_YESTERDAY_BEFORE = true ∧
    ratePy ⟨100, "09:00", none, none, true⟩ "USD" none none
        [((99, "USD"), (7, 2))] [] [] =
      ⟨.ok ⟨7, 2, 99, true, false⟩, [((99, "USD"), (7, 2))], [],
        [("USD", ⟨7, 2, 99, true, false⟩)], false⟩ :=
  ⟨by decide,
    before_cutoff_yesterday_probe ⟨100, "09:00", none, none, true⟩ "USD" none none
      [((99, "USD"), (7, 2))] [] [] 100 true (7, 2)
      (by decide) (by decide) (by decide) (by decide) (by decide)⟩

/-- C10: when the fetch succeeds but the parsed table has no
`'Mna: <CUR>'` row for the requested currency, the resolver exits with an
uncaught `KeyError` — not the rate-not-found `ValueError` — and touches
neither the in-memory cache, nor the fallback shadow, nor `RESULT_INFO`
(no fallback path is attempted). -/
theorem missing_currency_row_keyError (env : Env) (cur : String) (dateOpt : Option Int)
    (vdm : Option Nat) (cache : Cache) (fcache : FCache) (rinfo : RInfo)
    (dateAsk : Int) (fcb : Bool) (t : Table)
    (hcur : pyUpper cur ≠ "CZK") (hda : dateAskOf dateOpt env.today = (dateAsk, fcb))
    (hmiss : lookupA cache (dateAsk, pyUpper cur) = none)
    (hmiss2 : pyStrLt env.pragueHHMM CACHE_YESTERDAY_BEFORE = true →
      lookupA cache (dateAsk - 1, pyUpper cur) = none)
    (hfetch : env.fetch = some t) (hrow : t.amountRow = none) :
    ratePy env cur dateOpt vdm cache fcache rinfo =
      ⟨.keyError, cache, fcache, rinfo, true⟩ := by
  rw [ratePy_eq_fetchStage env cur dateOpt vdm cache fcache rinfo dateAsk fcb
    hcur hda hmiss hmiss2]
  simp [fetchStage, hfetch, hrow]

/-- Witness for C10: a successful fetch whose table lacks the
`'Mna: USD'` row raises `KeyError` with all state unchanged. -/
theorem missing_currency_row_keyError_witness :
    (⟨100, "15:00", some ⟨none, [(99, 5)]⟩, none, true⟩ : Env).fetch =
      some ⟨none, [(99, 5)]⟩ ∧
    ratePy ⟨100, "15:00", some ⟨none, [(99, 5)]⟩, none, true⟩ "USD" none none [] [] [] =
      ⟨.keyError, [], [], [], true⟩ :=
  ⟨rfl,
    missing_currency_row_keyError ⟨100, "15:00", some ⟨none, [(99, 5)]⟩, none, true⟩
      "USD" none none [] [] [] 100 true ⟨none, [(99, 5)]⟩
      (by decide) (by decide) (by decide) (fun _ => rfl) rfl rfl⟩

/-- C7: `worse`'s percent component is
`deltaInSrcCurrency / srcAmount * 100` for nonzero `srcAmount`; it is the
whole tuple `(0.0, 0.0, 0.0)` when both `srcAmount` and `obtainedAmount`
are zero; and for `srcAmount = 0` with nonzero `obtainedAmount` it is
`+∞` when the obtained amount is negative and `-∞` when it is positive. -/
theorem worse_percent_spec (ρ : String → ℚ) (s : ℚ) (sc : String) (ob : ℚ) (tc : String) :
    (s ≠ 0 → (worsePy ρ s sc ob tc).1 =
      .finite ((worsePy ρ s sc ob tc).2.1 / s * 100)) ∧
    (s = 0 → ob = 0 → worsePy ρ s sc ob tc = (.finite 0, 0, 0)) ∧
    (s = 0 → ob ≠ 0 →
      (worsePy ρ s sc ob tc).1 = if ob < 0 then PyFloat.inf else PyFloat.ninf) := by
  refine ⟨fun hs => ?_, fun hs hob => ?_, fun hs hob => ?_⟩
  · simp [worsePy, hs]
  · subst hs; subst hob
    simp [worsePy, convertPy_zero]
  · subst hs
    by_cases hlt : ob < 0 <;> simp [worsePy, hob, hlt]

/-- Witness for C7: the three percent cases at concrete inputs
(`worse(3,·,1,·)`, `worse(0,·,0,·)`, `worse(0,·,5,·)` with unit rates). -/
theorem worse_percent_spec_witness :
    ((3 : ℚ) ≠ 0 ∧ (worsePy (fun _ => 1) 3 "EUR" 1 "PLN").1 =
      .finite ((worsePy (fun _ => 1) 3 "EUR" 1 "PLN").2.1 / 3 * 100)) ∧
    worsePy (fun _ => 1) 0 "EUR" 0 "PLN" = (.finite 0, 0, 0) ∧
    ((5 : ℚ) ≠ 0 ∧ (worsePy (fun _ => 1) 0 "EUR" 5 "PLN").1 = PyFloat.ninf) := by
  refine ⟨⟨by norm_num,
      (worse_percent_spec (fun _ => 1) 3 "EUR" 1 "PLN").1 (by norm_num)⟩,
    (worse_percent_spec (fun _ => 1) 0 "EUR" 0 "PLN").2.1 rfl rfl,
    by norm_num, ?_⟩
  have h := (worse_percent_spec (fun _ => 1) 0 "EUR" 5 "PLN").2.2 rfl (by norm_num)
  rw [h, if_neg (by norm_num)]

/-- C8: converting a currency to itself through the CZK pivot is the
identity on the amount (exact arithmetic; the resolved per-unit rate of a
currency that resolves is nonzero). -/
theorem convert_self_identity (ρ : String → ℚ) (amount : ℚ) (X : String)
    (h : ρ X ≠ 0) : convertPy ρ amount X X 0 = amount := by
  by_cases hX : pyUpper X = "CZK"
  · simp [convertPy, convert_toPy, modifiedPy, hX]
  · simp [convertPy, convert_toPy, modifiedPy, hX]
    exact mul_div_cancel_right₀ amount h

/-- Witness for C8 at rate 5, amount 7, currency `"USD"`. -/
theorem convert_self_identity_witness :
    ((fun _ : String => (5 : ℚ)) "USD" ≠ 0) ∧
    convertPy (fun _ => 5) 7 "USD" "USD" 0 = 7 :=
  ⟨by norm_num, convert_self_identity (fun _ => 5) 7 "USD" (by norm_num)⟩

/-- C3: when the fetch fails with offline fallback enabled, the resolver
scans the in-memory cache for this currency in the probe order
`specScanOrder` — `delta = 0 .. testDelta-1`, checking `today - delta`
then, only for `delta > 0`, `today + delta`, so today is checked exactly
once — and returns the rate and amount of the first hit tagged
`servedFromCache = true`, `servedFromDegradedFallback = true` (at some
effective date; the cache entry stores no date of its own). -/
theorem offline_scan_order (env : Env) (cur : String) (dateOpt : Option Int)
    (vdm : Option Nat) (cache : Cache) (fcache : FCache) (rinfo : RInfo)
    (dateAsk : Int) (fcb : Bool) (testDelta : Nat) (v : ℚ × ℚ)
    (hcur : pyUpper cur ≠ "CZK") (hda : dateAskOf dateOpt env.today = (dateAsk, fcb))
    (hmiss : lookupA cache (dateAsk, pyUpper cur) = none)
    (hmiss2 : pyStrLt env.pragueHHMM CACHE_YESTERDAY_BEFORE = true →
      lookupA cache (dateAsk - 1, pyUpper cur) = none)
    (hfetch : env.fetch = none)
    (hoff : env.offlineCache = true)
    (htd : testDelta =
      (match lookupA (fcacheAfterLoad env fcache (pyUpper cur)) (pyUpper cur) with
        | none => vdm.getD VALID_DAYS_MAX_DEFAULT + 1
        | some f => if (dateAsk - f.2.2).natAbs ≤ vdm.getD VALID_DAYS_MAX_DEFAULT
                    then (dateAsk - f.2.2).natAbs
                    else vdm.getD VALID_DAYS_MAX_DEFAULT + 1))
    (hv : (specScanOrder env.today testDelta).findSome?
        (fun d => lookupA cache (d, pyUpper cur)) = some v) :
    ∃ d, ratePy env cur dateOpt vdm cache fcache rinfo =
      ⟨.ok ⟨v.1, v.2, d, true, true⟩, cache, fcacheAfterLoad env fcache (pyUpper cur),
        insertA rinfo (pyUpper cur) ⟨v.1, v.2, d, true, true⟩, true⟩ := by
  rw [ratePy_eq_fetchStage env cur dateOpt vdm cache fcache rinfo dateAsk fcb
    hcur hda hmiss hmiss2]
  have hs : fallbackScan cache (pyUpper cur) env.today testDelta = some v := by
    rw [fallbackScan_eq_specScan]
    exact hv
  refine ⟨if pyStrLt env.pragueHHMM CACHE_YESTERDAY_BEFORE then dateAsk - 1 else dateAsk, ?_⟩
  have he : fetchStage env (pyUpper cur) dateAsk fcb (vdm.getD VALID_DAYS_MAX_DEFAULT)
      (if pyStrLt env.pragueHHMM CACHE_YESTERDAY_BEFORE then dateAsk - 1 else dateAsk)
      cache fcache rinfo =
      offlineFallback env (pyUpper cur) dateAsk (vdm.getD VALID_DAYS_MAX_DEFAULT)
        (if pyStrLt env.pragueHHMM CACHE_YESTERDAY_BEFORE then dateAsk - 1 else dateAsk)
        cache fcache rinfo := by
    simp [fetchStage, hfetch]
  rw [he]
  exact offlineFallback_scanHit env (pyUpper cur) dateAsk (vdm.getD VALID_DAYS_MAX_DEFAULT)
    (if pyStrLt env.pragueHHMM CACHE_YESTERDAY_BEFORE then dateAsk - 1 else dateAsk)
    cache fcache rinfo testDelta v hoff htd hs

/-- Witness for C3, the spec's scenario: fetch fails, the only cached
entry for USD is dated `today - 3`, `validDaysMax = 3`, no persisted
fallback — the entry's rate and amount are served tagged degraded. -/
theorem offline_scan_order_witness :
    ∃ d, ratePy ⟨100, "15:00", none, none, true⟩ "USD" none (some 3)
        [((97, "USD"), (7, 2))] [] [] =
      ⟨.ok ⟨7, 2, d, true, true⟩, [((97, "USD"), (7, 2))], [],
        [("USD", ⟨7, 2, d, true, true⟩)], true⟩ :=
  offline_scan_order ⟨100, "15:00", none, none, true⟩ "USD" none (some 3)
    [((97, "USD"), (7, 2))] [] [] 100 true 4 (7, 2)
    (by decide) rfl (by decide) (fun _ => rfl) rfl rfl (by decide) (by decide)

/-- C4: when the fetch fails (`IOError`) or no date in the fetch window
matches, and there is neither an in-memory scan hit nor a persisted
fallback entry within `validDaysMax`, the resolver raises the
rate-not-found `ValueError`; with offline fallback disabled this happens
directly on fetch failure. -/
theorem not_found_when_paths_exhausted (env : Env) (cur : String) (dateOpt : Option Int)
    (vdm : Option Nat) (cache : Cache) (fcache : FCache) (rinfo : RInfo)
    (dateAsk : Int) (fcb : Bool)
    (hcur : pyUpper cur ≠ "CZK") (hda : dateAskOf dateOpt env.today = (dateAsk, fcb))
    (hmiss : lookupA cache (dateAsk, pyUpper cur) = none)
    (hmiss2 : pyStrLt env.pragueHHMM CACHE_YESTERDAY_BEFORE = true →
      lookupA cache (dateAsk - 1, pyUpper cur) = none)
    (hfail : env.fetch = none ∨ ∃ t a, env.fetch = some t ∧ t.amountRow = some a ∧
      findDateTest t dateAsk = none)
    (hnofb : env.offlineCache = true →
      (∀ f, lookupA (fcacheAfterLoad env fcache (pyUpper cur)) (pyUpper cur) = some f →
        ¬ (dateAsk - f.2.2).natAbs ≤ vdm.getD VALID_DAYS_MAX_DEFAULT) ∧
      fallbackScan cache (pyUpper cur) env.today
        (vdm.getD VALID_DAYS_MAX_DEFAULT + 1) = none) :
    (ratePy env cur dateOpt vdm cache fcache rinfo).outcome = .rateNotFound := by
  rw [ratePy_eq_fetchStage env cur dateOpt vdm cache fcache rinfo dateAsk fcb
    hcur hda hmiss hmiss2]
  have he : fetchStage env (pyUpper cur) dateAsk fcb (vdm.getD VALID_DAYS_MAX_DEFAULT)
      (if pyStrLt env.pragueHHMM CACHE_YESTERDAY_BEFORE then dateAsk - 1 else dateAsk)
      cache fcache rinfo =
      offlineFallback env (pyUpper cur) dateAsk (vdm.getD VALID_DAYS_MAX_DEFAULT)
        (if pyStrLt env.pragueHHMM CACHE_YESTERDAY_BEFORE then dateAsk - 1 else dateAsk)
        cache fcache rinfo := by
    rcases hfail with hf | ⟨t, a, hf, hrow, hdt⟩
    · simp [fetchStage, hf]
    · simp [fetchStage, hf, hrow, hdt]
  rw [he]
  by_cases hoff : env.offlineCache = true
  · obtain ⟨h1, h2⟩ := hnofb hoff
    rw [offlineFallback_notFound env (pyUpper cur) dateAsk (vdm.getD VALID_DAYS_MAX_DEFAULT)
      (if pyStrLt env.pragueHHMM CACHE_YESTERDAY_BEFORE then dateAsk - 1 else dateAsk)
      cache fcache rinfo hoff h1 h2]
  · have hoff' : env.offlineCache = false := by
      revert hoff
      cases env.offlineCache <;> simp
    rw [offlineFallback_disabled env (pyUpper cur) dateAsk (vdm.getD VALID_DAYS_MAX_DEFAULT)
      (if pyStrLt env.pragueHHMM CACHE_YESTERDAY_BEFORE then dateAsk - 1 else dateAsk)
      cache fcache rinfo hoff']

/-- Witness for C4: fetch fails, caches and fallback file empty, default
`validDaysMax` — the resolver reports rate-not-found. -/
theorem not_found_when_paths_exhausted_witness :
    (ratePy ⟨100, "15:00", none, none, true⟩ "USD" none none [] [] []).outcome =
      .rateNotFound :=
  not_found_when_paths_exhausted ⟨100, "15:00", none, none, true⟩ "USD" none none
    [] [] [] 100 true (by decide) rfl (by decide) (fun _ => rfl) (Or.inl rfl)
    (fun _ => ⟨fun f hf => Option.noConfusion hf, by decide⟩)

/-- C9: a resolution that fails with the rate-not-found error leaves the
in-memory rate cache and the process-wide `RESULT_INFO` map exactly as
they were (only the persisted-fallback shadow may have gained merged
entries): those maps are written only on paths that return a tuple. -/
theorem not_found_leaves_state (env : Env) (cur : String) (dateOpt : Option Int)
    (vdm : Option Nat) (cache : Cache) (fcache : FCache) (rinfo : RInfo)
    (h : (ratePy env cur dateOpt vdm cache fcache rinfo).outcome = .rateNotFound) :
    (ratePy env cur dateOpt vdm cache fcache rinfo).cache = cache ∧
    (ratePy env cur dateOpt vdm cache fcache rinfo).resultInfo = rinfo := by
  by_cases hczk : pyUpper cur = "CZK"
  · rw [ratePy_czk env cur dateOpt vdm cache fcache rinfo hczk] at h
    simp at h
  · rcases hda : dateAskOf dateOpt env.today with ⟨dateAsk, fcb⟩
    rcases hl : lookupA cache (dateAsk, pyUpper cur) with _ | v
    · by_cases hcut : pyStrLt env.pragueHHMM CACHE_YESTERDAY_BEFORE = true
      · rcases hl2 : lookupA cache (dateAsk - 1, pyUpper cur) with _ | v
        · rw [ratePy_eq_fetchStage env cur dateOpt vdm cache fcache rinfo dateAsk fcb
            hczk hda hl (fun _ => hl2)] at h ⊢
          exact fetchStage_notFound_preserves _ _ _ _ _ _ _ _ _ h
        · rw [ratePy_probeHit env cur dateOpt vdm cache fcache rinfo dateAsk fcb v
            hczk hda hl hcut hl2] at h
          simp at h
      · rw [ratePy_eq_fetchStage env cur dateOpt vdm cache fcache rinfo dateAsk fcb
          hczk hda hl (fun hc => absurd hc hcut)] at h ⊢
        exact fetchStage_notFound_preserves _ _ _ _ _ _ _ _ _ h
    · rw [ratePy_cacheHit env cur dateOpt vdm cache fcache rinfo dateAsk fcb v
        hczk hda hl] at h
      simp at h

/-- Witness for C9: a failing resolution over empty state leaves the rate
cache and `RESULT_INFO` empty. -/
theorem not_found_leaves_state_witness :
    (ratePy ⟨100, "15:00", none, none, true⟩ "USD" none (some 0) [] [] []).outcome =
      .rateNotFound ∧
    (ratePy ⟨100, "15:00", none, none, true⟩ "USD" none (some 0) [] [] []).cache = [] ∧
    (ratePy ⟨100, "15:00", none, none, true⟩ "USD" none (some 0) [] [] []).resultInfo = [] := by
  refine ⟨by decide, ?_, ?_⟩
  · exact (not_found_leaves_state ⟨100, "15:00", none, none, true⟩ "USD" none (some 0)
      [] [] [] (by decide)).1
  · exact (not_found_leaves_state ⟨100, "15:00", none, none, true⟩ "USD" none (some 0)
      [] [] [] (by decide)).2

/-- C1 counterexample: after the 14:00 cutoff, a first call with a
successful fetch whose table covers only `today - 1` (not today itself)
returns `(5, 1, day 99, False, False)` and caches the entry under day 99;
the second identical call misses the cache for day 100, fetches again
(`didFetch = true`) and again returns `fromCache = false` — not
`servedFromCache = true` as the claim states. -/
theorem resolve_idempotent_counterexample :
    (ratePy envSkipToday "USD" none none [] [] []).outcome =
      .ok ⟨5, 1, 99, false, false⟩ ∧
    (ratePy envSkipToday "USD" none none [] [] []).didFetch = true ∧
    ((fun r1 => ratePy envSkipToday "USD" none none r1.cache r1.fcache r1.resultInfo)
        (ratePy envSkipToday "USD" none none [] [] [])).outcome =
      .ok ⟨5, 1, 99, false, false⟩ ∧
    ((fun r1 => ratePy envSkipToday "USD" none none r1.cache r1.fcache r1.resultInfo)
        (ratePy envSkipToday "USD" none none [] [] [])).didFetch = true := by
  decide

/-- C1 amended: two consecutive `resolve` calls for the same currency and
date with no clock change, a successful first fetch **whose table covers
the asked date itself**, and a first call that actually inserts into the
cache (fresh-cacheable or cache below its size bound) yield the same rate
and amount on the second call, the second tagged `servedFromCache = true`. -/
theorem resolve_idempotent_amended (env : Env) (cur : String) (dateOpt : Option Int)
    (vdm : Option Nat) (cache : Cache) (fcache : FCache) (rinfo : RInfo)
    (dateAsk : Int) (fcb : Bool) (t : Table) (a q : ℚ) (r1 : RateResult)
    (hcur : pyUpper cur ≠ "CZK") (hda : dateAskOf dateOpt env.today = (dateAsk, fcb))
    (hmiss : lookupA cache (dateAsk, pyUpper cur) = none)
    (hmiss2 : pyStrLt env.pragueHHMM CACHE_YESTERDAY_BEFORE = true →
      lookupA cache (dateAsk - 1, pyUpper cur) = none)
    (hfetch : env.fetch = some t) (hrow : t.amountRow = some a)
    (hq : lookupA t.rates dateAsk = some q)
    (hins : fcb = true ∨ cache.length < SIZE_CACHE_OLDER)
    (hr1 : ratePy env cur dateOpt vdm cache fcache rinfo = r1) :
    r1.outcome = .ok ⟨q, a, dateAsk, false, false⟩ ∧
    (ratePy env cur dateOpt vdm r1.cache r1.fcache r1.resultInfo).outcome =
      .ok ⟨q, a, dateAsk, true, false⟩ := by
  subst hr1
  have hdt : findDateTest t dateAsk = some dateAsk := findDateTest_self t dateAsk q hq
  have hcond : (fcb || decide (cache.length < SIZE_CACHE_OLDER)) = true := by
    rcases hins with h | h <;> simp [h]
  have h1 : ratePy env cur dateOpt vdm cache fcache rinfo =
      ⟨.ok ⟨q, a, dateAsk, false, false⟩,
        insertA cache (dateAsk, pyUpper cur) (q, a),
        (if fcb then insertA fcache (pyUpper cur) (q, a, env.today) else fcache),
        insertA rinfo (pyUpper cur) ⟨q, a, dateAsk, false, false⟩, true⟩ := by
    rw [ratePy_eq_fetchStage env cur dateOpt vdm cache fcache rinfo dateAsk fcb
        hcur hda hmiss hmiss2,
      fetchStage_success env (pyUpper cur) dateAsk fcb (vdm.getD VALID_DAYS_MAX_DEFAULT)
        (if pyStrLt env.pragueHHMM CACHE_YESTERDAY_BEFORE then dateAsk - 1 else dateAsk)
        cache fcache rinfo t a dateAsk hfetch hrow hdt,
      if_pos hcond]
    simp [hq]
  rw [h1]
  refine ⟨rfl, ?_⟩
  rw [ratePy_cacheHit env cur dateOpt vdm (insertA cache (dateAsk, pyUpper cur) (q, a))
    (if fcb then insertA fcache (pyUpper cur) (q, a, env.today) else fcache)
    (insertA rinfo (pyUpper cur) ⟨q, a, dateAsk, false, false⟩) dateAsk fcb (q, a)
    hcur hda (lookupA_insertA_self cache (dateAsk, pyUpper cur) (q, a))]

/-- Witness for the amended C1: today's table row present, empty cache —
the first call fetches, the second is served from the cache. -/
theorem resolve_idempotent_amended_witness :
    ((ratePy ⟨100, "15:00", some ⟨some 1, [(100, 5)]⟩, none, true⟩ "USD"
        none none [] [] []).outcome = .ok ⟨5, 1, 100, false, false⟩) ∧
    ((fun r1 => (ratePy ⟨100, "15:00", some ⟨some 1, [(100, 5)]⟩, none, true⟩ "USD"
        none none r1.cache r1.fcache r1.resultInfo).outcome)
      (ratePy ⟨100, "15:00", some ⟨some 1, [(100, 5)]⟩, none, true⟩ "USD"
        none none [] [] []) = .ok ⟨5, 1, 100, true, false⟩) :=
  resolve_idempotent_amended ⟨100, "15:00", some ⟨some 1, [(100, 5)]⟩, none, true⟩
    "USD" none none [] [] [] 100 true ⟨some 1, [(100, 5)]⟩ 1 5 _
    (by decide) rfl (by decide) (fun _ => rfl) rfl rfl rfl (Or.inl rfl) rfl

set_option maxRecDepth 10000 in
/-- C2 counterexample: with 500 cache entries of which only 499 are dated
other than today (the "historical" count is below `SIZE_CACHE_OLDER`),
a successful non-fresh-cacheable resolution performs no insertion — the
code bounds the **total** cache size, not the historical count, so
"insertion occurs exactly when fresh-cacheable or the historical cache is
below its size bound" fails at this input. -/
theorem cache_insert_counterexample :
    cacheOlderCount bigCache 100 < SIZE_CACHE_OLDER ∧
    (dateAskOf (some 50) 100).2 = false ∧
    (ratePy envPast50 "USD" (some 50) none bigCache [] []).outcome =
      .ok ⟨5, 1, 50, false, false⟩ ∧
    (ratePy envPast50 "USD" (some 50) none bigCache [] []).cache = bigCache := by
  decide

/-- C2 amended: on a successful fetch with matched date, the cache
insertion happens exactly when the lookup is fresh-cacheable or the
**total** number of entries in the in-memory cache (today-dated entries
included) is below `SIZE_CACHE_OLDER`; the inserted entry is keyed by the
matched table date, which need not be today. -/
theorem cache_insert_iff_total_size (env : Env) (cur : String) (dateOpt : Option Int)
    (vdm : Option Nat) (cache : Cache) (fcache : FCache) (rinfo : RInfo)
    (dateAsk : Int) (fcb : Bool) (t : Table) (a : ℚ) (dt : Int)
    (hcur : pyUpper cur ≠ "CZK") (hda : dateAskOf dateOpt env.today = (dateAsk, fcb))
    (hmiss : lookupA cache (dateAsk, pyUpper cur) = none)
    (hmiss2 : pyStrLt env.pragueHHMM CACHE_YESTERDAY_BEFORE = true →
      lookupA cache (dateAsk - 1, pyUpper cur) = none)
    (hfetch : env.fetch = some t) (hrow : t.amountRow = some a)
    (hdt : findDateTest t dateAsk = some dt) :
    (ratePy env cur dateOpt vdm cache fcache rinfo).cache =
      if fcb = true ∨ cache.length < SIZE_CACHE_OLDER then
        insertA cache (dt, pyUpper cur) ((lookupA t.rates dt).getD 0, a)
      else cache := by
  rw [ratePy_eq_fetchStage env cur dateOpt vdm cache fcache rinfo dateAsk fcb
      hcur hda hmiss hmiss2,
    fetchStage_success env (pyUpper cur) dateAsk fcb (vdm.getD VALID_DAYS_MAX_DEFAULT)
      (if pyStrLt env.pragueHHMM CACHE_YESTERDAY_BEFORE then dateAsk - 1 else dateAsk)
      cache fcache rinfo t a dt hfetch hrow hdt]
  have hb : ((fcb || decide (cache.length < SIZE_CACHE_OLDER)) = true) ↔
      (fcb = true ∨ cache.length < SIZE_CACHE_OLDER) := by
    simp
  by_cases hc : fcb = true ∨ cache.length < SIZE_CACHE_OLDER
  · rw [if_pos (hb.mpr hc), if_pos hc]
  · rw [if_neg (fun hx => hc (hb.mp hx)), if_neg hc]

/-- Witness for the amended C2: empty cache, fresh-cacheable lookup — the
fetched rate is inserted under the matched date. -/
theorem cache_insert_iff_total_size_witness :
    (ratePy envSkipToday "USD" none none [] [] []).cache =
      if true = true ∨ ([] : Cache).length < SIZE_CACHE_OLDER then
        insertA [] ((99 : Int), pyUpper "USD")
          ((lookupA (Table.rates ⟨some 1, [(99, 5)]⟩) 99).getD 0, 1)
      else [] :=
  cache_insert_iff_total_size envSkipToday "USD" none none [] [] [] 100 true
    ⟨some 1, [(99, 5)]⟩ 1 99 (by decide) rfl (by decide) (fun _ => rfl) rfl rfl
    (by decide)
